import Mathlib

/-!
Verification of the `piwrapper` library (files `piwrapper/PiConnect.py`,
`piwrapper/PiConsts.py`) against its natural-language specification.

The Python code is shallowly embedded: JSON payloads become an inductive
`Json` type, the HTTP transport becomes a function from requests to
responses, every exception the code can raise becomes a constructor of
`PiError`, and every method of the `Connection` class becomes a Lean
function that returns the (possibly updated) connection object, the list
of HTTP requests it issued, and either a result or an error.
-/

deriving instance DecidableEq for Except

namespace PiWrapper

/-- A parsed JSON value, as produced by Python's `json.loads`.  Response
bodies are modelled as already parsed (`json.loads` is the identity on
this representation); numbers are modelled as integers, which covers
every payload the claims exercise. -/
inductive Json where
  | null : Json
  | bool (b : Bool) : Json
  | num (n : Int) : Json
  | str (s : String) : Json
  | arr (xs : List Json) : Json
  | obj (fields : List (String × Json)) : Json

mutual

/-- Structural equality test on `Json` (Python `==` on parsed values). -/
def Json.beq : Json → Json → Bool
  | .null, .null => true
  | .bool a, .bool b => a == b
  | .num a, .num b => a == b
  | .str a, .str b => a == b
  | .arr a, .arr b => Json.beqList a b
  | .obj a, .obj b => Json.beqFields a b
  | _, _ => false

/-- Elementwise equality test on JSON arrays. -/
def Json.beqList : List Json → List Json → Bool
  | [], [] => true
  | a :: as, b :: bs => Json.beq a b && Json.beqList as bs
  | _, _ => false

/-- Entrywise equality test on JSON objects. -/
def Json.beqFields : List (String × Json) → List (String × Json) → Bool
  | [], [] => true
  | (k, v) :: as, (l, w) :: bs => k == l && Json.beq v w && Json.beqFields as bs
  | _, _ => false

end

mutual

theorem Json.beq_iff : ∀ a b : Json, Json.beq a b = true ↔ a = b
  | .null, b => by cases b <;> simp [Json.beq]
  | .bool a, b => by cases b <;> simp [Json.beq]
  | .num a, b => by cases b <;> simp [Json.beq]
  | .str a, b => by cases b <;> simp [Json.beq]
  | .arr a, b => by
      cases b <;> simp [Json.beq]
      exact Json.beqList_iff a _
  | .obj a, b => by
      cases b <;> simp [Json.beq]
      exact Json.beqFields_iff a _

theorem Json.beqList_iff : ∀ a b : List Json, Json.beqList a b = true ↔ a = b
  | [], b => by cases b <;> simp [Json.beqList]
  | x :: xs, b => by
      cases b <;> simp [Json.beqList]
      rw [Json.beq_iff, Json.beqList_iff]

theorem Json.beqFields_iff :
    ∀ a b : List (String × Json), Json.beqFields a b = true ↔ a = b
  | [], b => by cases b <;> simp [Json.beqFields]
  | (k, v) :: xs, b => by
      cases b with
      | nil => simp [Json.beqFields]
      | cons y ys =>
        obtain ⟨l, w⟩ := y
        simp [Json.beqFields]
        rw [Json.beq_iff, Json.beqFields_iff]

end

instance : DecidableEq Json := fun a b =>
  decidable_of_iff (Json.beq a b = true) (Json.beq_iff a b)

/-- Python `d[k]` on a parsed-JSON dict: the first binding of `k` (all
payloads in this development have distinct keys, so first-vs-last is
immaterial).  Returns `none` when the key is absent (Python `KeyError`)
or the value is not a dict (Python `TypeError`). -/
def Json.lookup : Json → String → Option Json
  | .obj fields, k => fields.lookup k
  | _, _ => none

/-- Python truthiness (`if x:`) of a parsed JSON value. -/
def Json.truthy : Json → Bool
  | .null => false
  | .bool b => b
  | .num n => n != 0
  | .str s => s != ""
  | .arr xs => !xs.isEmpty
  | .obj fs => !fs.isEmpty

mutual

/-- Python `repr` of a parsed JSON value (used by f-strings such as the
one that formats `webid_dic.keys()` into an error message). -/
def Json.pyRepr : Json → String
  | .null => "None"
  | .bool true => "True"
  | .bool false => "False"
  | .num n => toString n
  | .str s => "\x27" ++ s ++ "\x27"
  | .arr xs => "[" ++ Json.pyReprList xs ++ "]"
  | .obj fs => "\x7b" ++ Json.pyReprFields fs ++ "\x7d"

/-- Comma-separated `repr`s of the elements of a Python list. -/
def Json.pyReprList : List Json → String
  | [] => ""
  | [x] => x.pyRepr
  | x :: y :: rest => x.pyRepr ++ ", " ++ Json.pyReprList (y :: rest)

/-- Comma-separated `repr`s of the entries of a Python dict. -/
def Json.pyReprFields : List (String × Json) → String
  | [] => ""
  | [(k, v)] => "\x27" ++ k ++ "\x27: " ++ v.pyRepr
  | (k, v) :: e :: rest =>
      "\x27" ++ k ++ "\x27: " ++ v.pyRepr ++ ", " ++ Json.pyReprFields (e :: rest)

end

/-- Python `str` of a parsed JSON value, as an f-string interpolates it
into a URL: a string interpolates verbatim, everything else as its
`repr`. -/
def Json.pyStr : Json → String
  | .str s => s
  | j => j.pyRepr

/-- Python `str` of an `Optional[str]` argument interpolated into an
f-string: `None` renders as the four characters `None`. -/
def pyOptStr : Option String → String
  | none => "None"
  | some s => s

/-- The keys of a serialized JSON object. -/
def Json.keys : Json → List String
  | .obj fields => fields.map Prod.fst
  | _ => []

/-- `needle` occurs contiguously inside `hay`. -/
def hasSubstr (needle hay : String) : Prop :=
  ∃ pre post : List Char, pre ++ needle.data ++ post = hay.data

instance (n h : String) : Decidable (hasSubstr n h) :=
  List.decidableInfix n.data h.data

/-- The `PIValue` dataclass of `PiConnect.py`.  `time_stamp` is modelled
by the string `datetime.isoformat` produces for it (the only use the
code makes of the datetime); the other fields are `Optional` exactly as
in the source, with Lean `none` standing for Python `None`. -/
structure PIValue where
  time_stamp : String
  units_abbreviation : Option String
  good : Option Bool
  questionable : Option Bool
  value : Option Json
deriving DecidableEq

/-- `datetime.datetime.min.isoformat()`, the default `time_stamp`. -/
def datetime_min_isoformat : String := "0001-01-01T00:00:00"

/-- `PIValue.to_json`: builds `tmp_dict` with the always-present
`Timestamp` key and then conditionally adds each optional field, and
serializes it with `json.dumps`.  `json.dumps` is injective on these
dicts, so the serialized form is modelled by the JSON object itself. -/
def PIValue.to_json (v : PIValue) : Json :=
  .obj ([("Timestamp", Json.str v.time_stamp)]
    ++ (match v.units_abbreviation with
        | some u => [("UnitsAbbreviation", Json.str u)]
        | none => [])
    ++ (match v.good with
        | some g => [("Good", Json.bool g)]
        | none => [])
    ++ (match v.questionable with
        | some q => [("Questionable", Json.bool q)]
        | none => [])
    ++ (match v.value with
        | some x => [("Value", x)]
        | none => []))

/-- The `BufferOption` enumeration of `PiConsts.py` (member names and
string values exactly as in the source, including the misspelt
`BufferIdPossible`). -/
inductive BufferOption where
  | DO_NO_BUFFER : BufferOption
  | BUFFER_IF_POSSIBLE : BufferOption
  | BUFFER : BufferOption
deriving DecidableEq

/-- The `.value` attribute of a `BufferOption` member. -/
def BufferOption.value : BufferOption → String
  | .DO_NO_BUFFER => "DoNotBuffer"
  | .BUFFER_IF_POSSIBLE => "BufferIdPossible"
  | .BUFFER => "Buffer"

/-- `BufferOption(s)`: Python `Enum` lookup by value; any string outside
the closed set raises `ValueError` at construction time, modelled by
`none`. -/
def BufferOption.ofString (s : String) : Option BufferOption :=
  if s = "DoNotBuffer" then some .DO_NO_BUFFER
  else if s = "BufferIdPossible" then some .BUFFER_IF_POSSIBLE
  else if s = "Buffer" then some .BUFFER
  else none

/-- The `UpdateOption` enumeration of `PiConsts.py`. -/
inductive UpdateOption where
  | REPLACE : UpdateOption
  | INSERT : UpdateOption
  | NO_REPLACE : UpdateOption
  | REPLACE_ONLY : UpdateOption
  | INSERT_NO_COMPRESSION : UpdateOption
  | REMOVE : UpdateOption
deriving DecidableEq

/-- The `.value` attribute of an `UpdateOption` member. -/
def UpdateOption.value : UpdateOption → String
  | .REPLACE => "Replace"
  | .INSERT => "Insert"
  | .NO_REPLACE => "NoReplace"
  | .REPLACE_ONLY => "ReplaceOnly"
  | .INSERT_NO_COMPRESSION => "InsertNoCompression"
  | .REMOVE => "Remove"

/-- Modelled from the spec: the `RetrievalMode` enumeration is imported
from `piwrapper.PiConsts` by both `piwrapper/__init__.py` and
`piwrapper/PiConnect.py`, but its definition is missing from the
provided `PiConsts.py`.  The spec fixes its closed token set to
exact/before/after/interpolated; the wire tokens are CamelCase like the
sibling enumerations, matching the code's comparison of
`retrival_mode.value` with `"Exact"`. -/
inductive RetrievalMode where
  | EXACT : RetrievalMode
  | BEFORE : RetrievalMode
  | AFTER : RetrievalMode
  | INTERPOLATED : RetrievalMode
deriving DecidableEq

/-- Modelled from the spec: the `.value` attribute of a `RetrievalMode`
member, the wire-protocol query-parameter token. -/
def RetrievalMode.value : RetrievalMode → String
  | .EXACT => "Exact"
  | .BEFORE => "Before"
  | .AFTER => "After"
  | .INTERPOLATED => "Interpolated"

/-- Modelled from the spec: `RetrievalMode(s)`, Python `Enum` lookup by
value; any string outside the closed set is rejected at construction
time, modelled by `none`. -/
def RetrievalMode.ofString (s : String) : Option RetrievalMode :=
  if s = "Exact" then some .EXACT
  else if s = "Before" then some .BEFORE
  else if s = "After" then some .AFTER
  else if s = "Interpolated" then some .INTERPOLATED
  else none

/-- An HTTP response as the code observes it: `status_code`, the parsed
JSON body (`json.loads(response.content)`), and the response headers. -/
structure Response where
  status_code : Nat
  content : Json
  headers : List (String × String)
deriving DecidableEq

/-- An HTTP request as the code issues it through `requests.get` /
`requests.post`: method, full URL, and the serialized body for a POST.
The per-request `auth`, `Content-Type` header and `verify` flag are the
same on every request (taken from the connection) and carry no
information, so they are not repeated here. -/
structure Request where
  method : String
  url : String
  body : Option Json
deriving DecidableEq

/-- The HTTP transport boundary: what the remote server answers to each
request.  A pure function, since the code never issues the same request
twice within one operation. -/
def Transport : Type := Request → Response

/-- Every exception `PiConnect.py` can raise, one constructor per Python
exception class (plus the implicit `KeyError`/`TypeError`/
`StopIteration` the interpreter itself can raise on the same paths). -/
inductive PiError where
  | connectionError (msg : String) : PiError
  | lookupError (resp : Response) : PiError
  | valueError (msg : String) : PiError
  | keyError (k : String) : PiError
  | typeError (msg : String) : PiError
  | stopIteration : PiError
deriving DecidableEq

/-- The authentication strategy chosen in `Connection.__init__`: either
`HTTPKerberosAuth` (with `mutual_authentication = REQUIRED` iff `verify`)
or the basic-credentials pair. -/
inductive Auth where
  | kerberos (mutual_required : Bool) : Auth
  | basic (username password : String) : Auth
deriving DecidableEq

/-- The attributes of a `Connection` object.  `data_server_list` is the
attribute that `get_data_servers` assigns on `self`; it does not exist
until then, modelled by `none`. -/
structure Connection where
  auth : Auth
  base_url : String
  starting_url : String
  verify : Bool
  data_server_list : Option (List Json)
deriving DecidableEq

/-- `Connection.__init__`.  The `urllib3.disable_warnings` call on the
`verify = False` path is a process-global side effect outside the
object's state and is not modelled. -/
def Connection.init (server : String) (basic_credentials : Option (String × String))
    (verify : Bool) : Connection :=
  { auth := match basic_credentials with
      | none => .kerberos verify
      | some (u, p) => .basic u p
    base_url := server
    starting_url := "https://" ++ server ++ "/piwebapi/"
    verify := verify
    data_server_list := none }

/-- The outcome of one method call: the (possibly updated) connection
object, the HTTP requests issued in order, and the returned value or
the exception raised. -/
structure OpResult (α : Type) where
  conn : Connection
  trace : List Request
  result : Except PiError α

/-- One step of the dict comprehension
`{idx["Name"]: idx["WebId"] for idx in ...}`: Python dict insertion
replaces the value in place when the key is already present, otherwise
appends the new binding. -/
def dictInsert (d : List (Json × Json)) (k v : Json) : List (Json × Json) :=
  if d.any (fun p => decide (p.1 = k)) then
    d.map (fun p => if p.1 = k then (k, v) else p)
  else d ++ [(k, v)]

/-- Whether a parsed JSON value is hashable in Python (usable as a dict
key): lists and dicts are not. -/
def Json.hashable : Json → Bool
  | .arr _ => false
  | .obj _ => false
  | _ => true

/-- The dict comprehension of `_find_pi_webid`, processing the `Items`
list left to right; `KeyError` when an item lacks `Name` or `WebId`,
`TypeError` when an item is not a dict or its name is unhashable. -/
def buildWebidDicAux : List (Json × Json) → List Json → Except PiError (List (Json × Json))
  | acc, [] => .ok acc
  | acc, idx :: rest =>
    match idx with
    | .obj fields =>
      match fields.lookup "Name" with
      | none => .error (.keyError "Name")
      | some name =>
        if name.hashable then
          match fields.lookup "WebId" with
          | none => .error (.keyError "WebId")
          | some webid => buildWebidDicAux (dictInsert acc name webid) rest
        else .error (.typeError "unhashable type")
    | _ => .error (.typeError "item is not subscriptable")

/-- `{idx["Name"]: idx["WebId"] for idx in items}`. -/
def buildWebidDic (items : List Json) : Except PiError (List (Json × Json)) :=
  buildWebidDicAux [] items

/-- The GET request `_find_pi_webid` issues:
`f"{self.starting_url}search/query?q=name:{pi_tag}"`. -/
def search_request (c : Connection) (pi_tag : Option String) : Request :=
  { method := "GET"
    url := c.starting_url ++ "search/query?q=name:" ++ pyOptStr pi_tag
    body := none }

/-- `Connection._find_pi_webid` (the tag pattern is `Optional` because
`update_value` forwards its `pi_tag` parameter, which may be `None`).
`requests.codes.ok` is 200. -/
def Connection.find_pi_webid (c : Connection) (t : Transport) (pi_tag : Option String) :
    OpResult (List (Json × Json)) :=
  let req := search_request c pi_tag
  let resp := t req
  { conn := c
    trace := [req]
    result :=
      if resp.status_code ≠ 200 then .error (.lookupError resp)
      else
        match resp.content.lookup "Items" with
        | none => .error (.keyError "Items")
        | some items =>
          if items.truthy then
            match items with
            | .arr l => buildWebidDic l
            | _ => .error (.typeError "Items is not a list of mappings")
          else .error (.valueError "No response. Please check tag name") }

/-- The GET request `_single_interpolated_value_getter` issues. -/
def interpolated_request (c : Connection) (webid : Json) : Request :=
  { method := "GET"
    url := c.starting_url ++ "streams/" ++ webid.pyStr ++ "/interpolated"
    body := none }

/-- `Connection._single_interpolated_value_getter`.  The
`pd.DataFrame(response_dict["Items"])` result is modelled by the
`Items` payload itself (the dataframe is a reshaping of exactly those
rows and the claims only concern which payload is returned). -/
def Connection.single_interpolated_value_getter (c : Connection) (t : Transport)
    (webid : Json) : OpResult Json :=
  let req := interpolated_request c webid
  let resp := t req
  { conn := c
    trace := [req]
    result :=
      if resp.status_code ≠ 200 then .error (.lookupError resp)
      else
        match resp.content.lookup "Items" with
        | none => .error (.keyError "Items")
        | some items =>
          if items.truthy then .ok items
          else .error (.valueError "No response. Please check webid") }

/-- The `repr` of `webid_dic.keys()`, as the ambiguity f-strings
interpolate it: `dict_keys([...])` around the comma-separated reprs of
the keys. -/
def dict_keys_repr (keys : List Json) : String :=
  "dict_keys([" ++ Json.pyReprList keys ++ "])"

/-- The `ValueError` message of `get_interpolated_value` and (verbatim,
including the `get_interpolated_values` hint) of
`get_recordedattime_value` when more than one tag matches. -/
def ambiguous_tags_msg (keys : List Json) : String :=
  "more than one tags have been found: " ++ dict_keys_repr keys
    ++ ", use get_interpolated_values method instead"

/-- The `ValueError` message of `update_value` when more than one webid
matches the tag pattern. -/
def ambiguous_webids_msg (keys : List Json) : String :=
  "more than one associated webids have been found: " ++ dict_keys_repr keys
    ++ ", use single webid instead"

/-- `Connection.get_interpolated_value`.  `next(iter(webid_dic.items()))`
is the first binding; on an empty dict it would raise `StopIteration`
(unreachable from `_find_pi_webid`, which never returns an empty dict). -/
def Connection.get_interpolated_value (c : Connection) (t : Transport)
    (pi_tag : String) : OpResult Json :=
  let r := c.find_pi_webid t (some pi_tag)
  match r.result with
  | .error e => { conn := r.conn, trace := r.trace, result := .error e }
  | .ok webid_dic =>
    if webid_dic.length > 1 then
      { conn := r.conn
        trace := r.trace
        result := .error (.valueError (ambiguous_tags_msg (webid_dic.map Prod.fst))) }
    else
      match webid_dic with
      | [] => { conn := r.conn, trace := r.trace, result := .error .stopIteration }
      | (_, v) :: _ =>
        let g := c.single_interpolated_value_getter t v
        { conn := g.conn, trace := r.trace ++ g.trace, result := g.result }

/-- The dict comprehension of `get_interpolated_values`: one
interpolated fetch per resolved tag, in dict order, first exception
aborting the whole comprehension. -/
def Connection.interpolated_fan_out (c : Connection) (t : Transport) :
    List (Json × Json) → List Request → List (Json × Json) → OpResult (List (Json × Json))
  | [], trace, acc => { conn := c, trace := trace, result := .ok acc }
  | (tag, webid) :: rest, trace, acc =>
    let g := c.single_interpolated_value_getter t webid
    match g.result with
    | .error e => { conn := c, trace := trace ++ g.trace, result := .error e }
    | .ok df => c.interpolated_fan_out t rest (trace ++ g.trace) (acc ++ [(tag, df)])

/-- `Connection.get_interpolated_values`. -/
def Connection.get_interpolated_values (c : Connection) (t : Transport)
    (pi_tag : String) : OpResult (List (Json × Json)) :=
  let r := c.find_pi_webid t (some pi_tag)
  match r.result with
  | .error e => { conn := r.conn, trace := r.trace, result := .error e }
  | .ok webid_dic => c.interpolated_fan_out t webid_dic r.trace []

/-- The POST request `update_value` issues. -/
def write_request (c : Connection) (webid_str : String) (update_option : UpdateOption)
    (buffer_option : BufferOption) (value : PIValue) : Request :=
  { method := "POST"
    url := c.starting_url ++ "streams/" ++ webid_str ++ "/value?updateOption="
      ++ update_option.value ++ "&bufferOption=" ++ buffer_option.value
    body := some value.to_json }

/-- The tail of `update_value` shared by both target branches: POST the
serialized value, treat any status other than `requests.codes.ok` (200)
or `requests.codes.no_content` (204) as `LookupError(response)`, and
return `response.headers["Location"]` (`KeyError` when absent). -/
def Connection.post_value (c : Connection) (t : Transport) (value : PIValue)
    (update_option : UpdateOption) (buffer_option : BufferOption)
    (webid_str : String) (trace0 : List Request) : OpResult String :=
  let req := write_request c webid_str update_option buffer_option value
  let resp := t req
  { conn := c
    trace := trace0 ++ [req]
    result :=
      if resp.status_code ≠ 200 ∧ resp.status_code ≠ 204 then .error (.lookupError resp)
      else
        match resp.headers.lookup "Location" with
        | none => .error (.keyError "Location")
        | some loc => .ok loc }

/-- `Connection.update_value`.  Both optional target parameters default
to `None`; the guard rejects only when both are supplied, and the
`webid == None` branch resolves `pi_tag` (even when it is also `None`). -/
def Connection.update_value (c : Connection) (t : Transport) (value : PIValue)
    (update_option : UpdateOption) (buffer_option : BufferOption)
    (pi_tag : Option String) (webid : Option String) : OpResult String :=
  if webid.isSome && pi_tag.isSome then
    { conn := c
      trace := []
      result := .error (.valueError "Cannot pass both webid and pi_tag at the same time") }
  else
    match webid with
    | none =>
      let r := c.find_pi_webid t pi_tag
      match r.result with
      | .error e => { conn := r.conn, trace := r.trace, result := .error e }
      | .ok webid_dic =>
        if webid_dic.length > 1 then
          { conn := r.conn
            trace := r.trace
            result := .error (.valueError (ambiguous_webids_msg (webid_dic.map Prod.fst))) }
        else
          match webid_dic with
          | [] => { conn := r.conn, trace := r.trace, result := .error .stopIteration }
          | (_, v) :: _ =>
            c.post_value t value update_option buffer_option v.pyStr r.trace
    | some w => c.post_value t value update_option buffer_option w []

/-- The GET request `_single_recordedattime_value_getter` issues. -/
def recordedattime_request (c : Connection) (webid : Json) (time : String)
    (retrival_mode : RetrievalMode) : Request :=
  { method := "GET"
    url := c.starting_url ++ "streams/" ++ webid.pyStr ++ "/recordedattime?retrievalMode="
      ++ retrival_mode.value ++ "&time=" ++ time
    body := none }

/-- `Connection._single_recordedattime_value_getter`: on a truthy
`Value` payload, `"Exact"` retrieval mode unwraps the inner
`["Value"]["Value"]` field, every other mode returns `["Value"]`
unchanged. -/
def Connection.single_recordedattime_value_getter (c : Connection) (t : Transport)
    (webid : Json) (time : String) (retrival_mode : RetrievalMode) : OpResult Json :=
  let req := recordedattime_request c webid time retrival_mode
  let resp := t req
  { conn := c
    trace := [req]
    result :=
      if resp.status_code ≠ 200 then .error (.lookupError resp)
      else
        match resp.content.lookup "Value" with
        | none => .error (.keyError "Value")
        | some v =>
          if v.truthy then
            if retrival_mode.value = "Exact" then
              match v.lookup "Value" with
              | none => .error (.keyError "Value")
              | some inner => .ok inner
            else .ok v
          else .error (.valueError "No response. Please check webid") }

/-- `Connection.get_recordedattime_value`.  Its ambiguity message is the
same f-string as `get_interpolated_value`'s, hint included. -/
def Connection.get_recordedattime_value (c : Connection) (t : Transport)
    (pi_tag : String) (time : String) (retrival_mode : RetrievalMode) : OpResult Json :=
  let r := c.find_pi_webid t (some pi_tag)
  match r.result with
  | .error e => { conn := r.conn, trace := r.trace, result := .error e }
  | .ok webid_dic =>
    if webid_dic.length > 1 then
      { conn := r.conn
        trace := r.trace
        result := .error (.valueError (ambiguous_tags_msg (webid_dic.map Prod.fst))) }
    else
      match webid_dic with
      | [] => { conn := r.conn, trace := r.trace, result := .error .stopIteration }
      | (_, v) :: _ =>
        let g := c.single_recordedattime_value_getter t v time retrival_mode
        { conn := g.conn, trace := r.trace ++ g.trace, result := g.result }

/-- The dict comprehension of `get_recordedattim_values`. -/
def Connection.recordedattime_fan_out (c : Connection) (t : Transport)
    (time : String) (retrival_mode : RetrievalMode) :
    List (Json × Json) → List Request → List (Json × Json) → OpResult (List (Json × Json))
  | [], trace, acc => { conn := c, trace := trace, result := .ok acc }
  | (tag, webid) :: rest, trace, acc =>
    let g := c.single_recordedattime_value_getter t webid time retrival_mode
    match g.result with
    | .error e => { conn := c, trace := trace ++ g.trace, result := .error e }
    | .ok rv =>
      c.recordedattime_fan_out t time retrival_mode rest (trace ++ g.trace) (acc ++ [(tag, rv)])

/-- `Connection.get_recordedattim_values` (method name as in the
source). -/
def Connection.get_recordedattim_values (c : Connection) (t : Transport)
    (pi_tag : String) (time : String) (retrival_mode : RetrievalMode) :
    OpResult (List (Json × Json)) :=
  let r := c.find_pi_webid t (some pi_tag)
  match r.result with
  | .error e => { conn := r.conn, trace := r.trace, result := .error e }
  | .ok webid_dic => c.recordedattime_fan_out t time retrival_mode webid_dic r.trace []

/-- `Connection.get_data_servers`: GETs the API root (raising
`ConnectionError` on a non-200 status), follows the
`Links.DataServers` URL (with no status check on that second
response), assigns the resulting `Items` list to
`self.data_server_list`, and returns it. -/
def Connection.get_data_servers (c : Connection) (t : Transport) : OpResult (List Json) :=
  let req1 : Request := { method := "GET", url := c.starting_url, body := none }
  let resp1 := t req1
  if resp1.status_code ≠ 200 then
    { conn := c
      trace := [req1]
      result := .error (.connectionError "Connection to PI REST API Server failed") }
  else
    match resp1.content.lookup "Links" with
    | none => { conn := c, trace := [req1], result := .error (.keyError "Links") }
    | some links =>
      match links.lookup "DataServers" with
      | none => { conn := c, trace := [req1], result := .error (.keyError "DataServers") }
      | some ds_url =>
        let req2 : Request := { method := "GET", url := ds_url.pyStr, body := none }
        let resp2 := t req2
        match resp2.content.lookup "Items" with
        | none => { conn := c, trace := [req1, req2], result := .error (.keyError "Items") }
        | some items =>
          match items with
          | .arr l =>
            { conn := { c with data_server_list := some l }
              trace := [req1, req2]
              result := .ok l }
          | _ =>
            { conn := c
              trace := [req1, req2]
              result := .error (.typeError "Items is not a list") }

/-! ### Concrete fixtures for witnesses and counterexamples -/

/-- A connection to server `srv` with Kerberos auth and verification. -/
def conn0 : Connection := Connection.init "srv" none true

/-- Two catalog matches, named `a` and `b`. -/
def items2 : Json := .arr
  [ .obj [("Name", .str "a"), ("WebId", .str "w1")],
    .obj [("Name", .str "b"), ("WebId", .str "w2")] ]

/-- Answers every request with both a two-match `Items` list and a
nested `Value` object, so searches, interpolated fetches and
recorded-at-time fetches all succeed on it. -/
def rich_transport : Transport := fun _ =>
  { status_code := 200
    content := .obj
      [ ("Items", items2),
        ("Value", .obj [("Value", .num 42), ("Good", .bool true)]) ]
    headers := [] }

/-- Transport whose search succeeds with zero matches. -/
def empty_items_transport : Transport := fun _ =>
  { status_code := 200, content := .obj [("Items", .arr [])], headers := [] }

/-- Transport that fails every request with a 404. -/
def notfound_transport : Transport := fun _ =>
  { status_code := 404, content := .null, headers := [] }

/-- Transport that answers every request with 204 No Content and a
`Location` header. -/
def nocontent_transport : Transport := fun _ =>
  { status_code := 204
    content := .null
    headers := [("Location", "https://srv/piwebapi/streams/w/value")] }

/-- Transport serving the API root and the data-servers listing. -/
def dataservers_transport : Transport := fun req =>
  if req.url = "https://srv/piwebapi/" then
    { status_code := 200
      content := .obj [("Links", .obj [("DataServers", .str "https://srv/piwebapi/dataservers")])]
      headers := [] }
  else
    { status_code := 200
      content := .obj [("Items", .arr [.obj [("Name", .str "ds1")]])]
      headers := [] }

/-- A `PIValue` with only the timestamp and a numeric value set. -/
def sample_value : PIValue :=
  { time_stamp := datetime_min_isoformat
    units_abbreviation := none
    good := none
    questionable := none
    value := some (.num 7) }

/-! ### Substring lemmas, for claims about error-message contents -/

theorem hasSubstr_refl (s : String) : hasSubstr s s := ⟨[], [], by simp⟩

theorem hasSubstr_append_left {n b : String} (a : String) (h : hasSubstr n b) :
    hasSubstr n (a ++ b) := by
  obtain ⟨pre, post, hp⟩ := h
  exact ⟨a.data ++ pre, post, by rw [String.data_append, ← hp]; simp⟩

theorem hasSubstr_append_right {n a : String} (b : String) (h : hasSubstr n a) :
    hasSubstr n (a ++ b) := by
  obtain ⟨pre, post, hp⟩ := h
  exact ⟨pre, post ++ b.data, by rw [String.data_append, ← hp]; simp⟩

theorem pyReprList_names : ∀ (keys : List Json) (j : Json), j ∈ keys →
    hasSubstr j.pyRepr (Json.pyReprList keys)
  | [], j, h => absurd h (List.not_mem_nil j)
  | [x], j, h => by
      rw [List.mem_singleton] at h
      subst h
      exact hasSubstr_refl _
  | x :: y :: rest, j, h => by
      rw [Json.pyReprList]
      rcases List.mem_cons.mp h with rfl | h2
      · exact hasSubstr_append_right _ (hasSubstr_append_right _ (hasSubstr_refl _))
      · exact hasSubstr_append_left _ (pyReprList_names (y :: rest) j h2)

theorem ambiguous_tags_msg_names {j : Json} {keys : List Json} (h : j ∈ keys) :
    hasSubstr j.pyRepr (ambiguous_tags_msg keys) :=
  hasSubstr_append_right _ (hasSubstr_append_left _
    (hasSubstr_append_right _ (hasSubstr_append_left _ (pyReprList_names keys j h))))

theorem ambiguous_webids_msg_names {j : Json} {keys : List Json} (h : j ∈ keys) :
    hasSubstr j.pyRepr (ambiguous_webids_msg keys) :=
  hasSubstr_append_right _ (hasSubstr_append_left _
    (hasSubstr_append_right _ (hasSubstr_append_left _ (pyReprList_names keys j h))))

/-! ### Behaviour of the fan-out loops when every fetch succeeds -/

theorem interpolated_fan_out_ok (c : Connection) (t : Transport) (F : Json → Json) :
    ∀ (l : List (Json × Json)) (trace : List Request) (acc : List (Json × Json)),
      (∀ p ∈ l, (c.single_interpolated_value_getter t p.2).result = .ok (F p.2)) →
      c.interpolated_fan_out t l trace acc =
        { conn := c
          trace := trace ++ l.map fun p => interpolated_request c p.2
          result := .ok (acc ++ l.map fun p => (p.1, F p.2)) }
  | [], trace, acc, h => by simp [Connection.interpolated_fan_out]
  | (tag, webid) :: rest, trace, acc, h => by
      have hg := h (tag, webid) (List.mem_cons_self _ _)
      simp only [Connection.interpolated_fan_out, hg]
      rw [interpolated_fan_out_ok c t F rest _ _
        (fun p hp => h p (List.mem_cons_of_mem _ hp))]
      simp [Connection.single_interpolated_value_getter]

theorem recordedattime_fan_out_ok (c : Connection) (t : Transport) (time : String)
    (mode : RetrievalMode) (G : Json → Json) :
    ∀ (l : List (Json × Json)) (trace : List Request) (acc : List (Json × Json)),
      (∀ p ∈ l, (c.single_recordedattime_value_getter t p.2 time mode).result = .ok (G p.2)) →
      c.recordedattime_fan_out t time mode l trace acc =
        { conn := c
          trace := trace ++ l.map fun p => recordedattime_request c p.2 time mode
          result := .ok (acc ++ l.map fun p => (p.1, G p.2)) }
  | [], trace, acc, h => by simp [Connection.recordedattime_fan_out]
  | (tag, webid) :: rest, trace, acc, h => by
      have hg := h (tag, webid) (List.mem_cons_self _ _)
      simp only [Connection.recordedattime_fan_out, hg]
      rw [recordedattime_fan_out_ok c t time mode G rest _ _
        (fun p hp => h p (List.mem_cons_of_mem _ hp))]
      simp [Connection.single_recordedattime_value_getter]

/-! ### No operation except get_data_servers touches the connection -/

theorem interpolated_fan_out_conn (c : Connection) (t : Transport) :
    ∀ (l : List (Json × Json)) (trace : List Request) (acc : List (Json × Json)),
      (c.interpolated_fan_out t l trace acc).conn = c
  | [], _, _ => rfl
  | (tag, webid) :: rest, trace, acc => by
      rcases hg : (c.single_interpolated_value_getter t webid).result with e | df
      · simp only [Connection.interpolated_fan_out, hg]
      · simp only [Connection.interpolated_fan_out, hg]
        exact interpolated_fan_out_conn c t rest _ _

theorem recordedattime_fan_out_conn (c : Connection) (t : Transport) (time : String)
    (mode : RetrievalMode) :
    ∀ (l : List (Json × Json)) (trace : List Request) (acc : List (Json × Json)),
      (c.recordedattime_fan_out t time mode l trace acc).conn = c
  | [], _, _ => rfl
  | (tag, webid) :: rest, trace, acc => by
      rcases hg : (c.single_recordedattime_value_getter t webid time mode).result with e | rv
      · simp only [Connection.recordedattime_fan_out, hg]
      · simp only [Connection.recordedattime_fan_out, hg]
        exact recordedattime_fan_out_conn c t time mode rest _ _

theorem get_interpolated_value_conn (c : Connection) (t : Transport) (tag : String) :
    (c.get_interpolated_value t tag).conn = c := by
  rcases hr : (c.find_pi_webid t (some tag)).result with e | dic
  · simp only [Connection.get_interpolated_value, hr]
    rfl
  · rcases dic with _ | ⟨⟨k, v⟩, rest⟩
    · simp only [Connection.get_interpolated_value, hr]
      rfl
    · by_cases hl : 1 < ((k, v) :: rest : List (Json × Json)).length
      · simp only [Connection.get_interpolated_value, hr, if_pos hl]
        rfl
      · simp only [Connection.get_interpolated_value, hr, if_neg hl]
        rfl

theorem get_interpolated_values_conn (c : Connection) (t : Transport) (tag : String) :
    (c.get_interpolated_values t tag).conn = c := by
  rcases hr : (c.find_pi_webid t (some tag)).result with e | dic
  · simp only [Connection.get_interpolated_values, hr]
    rfl
  · simp only [Connection.get_interpolated_values, hr]
    exact interpolated_fan_out_conn c t dic _ _

theorem get_recordedattime_value_conn (c : Connection) (t : Transport)
    (tag time : String) (mode : RetrievalMode) :
    (c.get_recordedattime_value t tag time mode).conn = c := by
  rcases hr : (c.find_pi_webid t (some tag)).result with e | dic
  · simp only [Connection.get_recordedattime_value, hr]
    rfl
  · rcases dic with _ | ⟨⟨k, v⟩, rest⟩
    · simp only [Connection.get_recordedattime_value, hr]
      rfl
    · by_cases hl : 1 < ((k, v) :: rest : List (Json × Json)).length
      · simp only [Connection.get_recordedattime_value, hr, if_pos hl]
        rfl
      · simp only [Connection.get_recordedattime_value, hr, if_neg hl]
        rfl

theorem get_recordedattim_values_conn (c : Connection) (t : Transport)
    (tag time : String) (mode : RetrievalMode) :
    (c.get_recordedattim_values t tag time mode).conn = c := by
  rcases hr : (c.find_pi_webid t (some tag)).result with e | dic
  · simp only [Connection.get_recordedattim_values, hr]
    rfl
  · simp only [Connection.get_recordedattim_values, hr]
    exact recordedattime_fan_out_conn c t time mode dic _ _

theorem update_value_conn (c : Connection) (t : Transport) (value : PIValue)
    (uo : UpdateOption) (bo : BufferOption) (p wopt : Option String) :
    (c.update_value t value uo bo p wopt).conn = c := by
  rcases wopt with _ | w
  · rcases hr : (c.find_pi_webid t p).result with e | dic
    · simp only [Connection.update_value, hr]
      rfl
    · rcases dic with _ | ⟨⟨k, v⟩, rest⟩
      · simp only [Connection.update_value, hr]
        rfl
      · by_cases hl : 1 < ((k, v) :: rest : List (Json × Json)).length
        · simp only [Connection.update_value, hr, if_pos hl]
          rfl
        · simp only [Connection.update_value, hr, if_neg hl]
          rfl
  · rcases p with _ | tag
    · rfl
    · rfl

theorem get_data_servers_config (c : Connection) (t : Transport) :
    (c.get_data_servers t).conn.auth = c.auth ∧
    (c.get_data_servers t).conn.base_url = c.base_url ∧
    (c.get_data_servers t).conn.starting_url = c.starting_url ∧
    (c.get_data_servers t).conn.verify = c.verify := by
  refine ⟨?_, ?_, ?_, ?_⟩ <;>
    · simp only [Connection.get_data_servers]
      repeat' split
      all_goals rfl

/-! ### Claims -/

/-- Claim C1, amended.  Under single-result policy with more than one
resolver match, `get_interpolated_value`, `get_recordedattime_value`
and `update_value` (given a tag pattern) all fail with a `ValueError`
whose message names every matched tag name, and no fetch or write is
performed (the trace is exactly the one search request).  The messages
of `get_interpolated_value` and `get_recordedattime_value` both direct
the caller to `get_interpolated_values` — the recorded-at-time variant
does not point at its own multi-result operation — and `update_value`'s
message directs the caller to supply a single webid instead. -/
theorem C1_ambiguous_single_result (c : Connection) (t : Transport) (tag : String)
    (time : String) (mode : RetrievalMode) (value : PIValue)
    (uo : UpdateOption) (bo : BufferOption) (items : List Json) (dic : List (Json × Json))
    (hok : (t (search_request c (some tag))).status_code = 200)
    (hitems : (t (search_request c (some tag))).content.lookup "Items" = some (.arr items))
    (hne : items ≠ [])
    (hdic : buildWebidDic items = .ok dic)
    (hlen : 1 < dic.length) :
    c.get_interpolated_value t tag =
      { conn := c
        trace := [search_request c (some tag)]
        result := .error (.valueError (ambiguous_tags_msg (dic.map Prod.fst))) } ∧
    c.get_recordedattime_value t tag time mode =
      { conn := c
        trace := [search_request c (some tag)]
        result := .error (.valueError (ambiguous_tags_msg (dic.map Prod.fst))) } ∧
    c.update_value t value uo bo (some tag) none =
      { conn := c
        trace := [search_request c (some tag)]
        result := .error (.valueError (ambiguous_webids_msg (dic.map Prod.fst))) } ∧
    (∀ j ∈ dic.map Prod.fst,
      hasSubstr j.pyRepr (ambiguous_tags_msg (dic.map Prod.fst)) ∧
      hasSubstr j.pyRepr (ambiguous_webids_msg (dic.map Prod.fst))) ∧
    hasSubstr "use get_interpolated_values method instead"
      (ambiguous_tags_msg (dic.map Prod.fst)) ∧
    hasSubstr "use single webid instead" (ambiguous_webids_msg (dic.map Prod.fst)) := by
  have hfind : (c.find_pi_webid t (some tag)).result = .ok dic := by
    have hemp : items.isEmpty = false := by
      cases items with
      | nil => exact absurd rfl hne
      | cons a l => rfl
    simp [Connection.find_pi_webid, hok, hitems, Json.truthy, hemp, hdic]
  refine ⟨?_, ?_, ?_, ?_, ?_, ?_⟩
  · simp only [Connection.get_interpolated_value, hfind, if_pos hlen]
    rfl
  · simp only [Connection.get_recordedattime_value, hfind, if_pos hlen]
    rfl
  · simp only [Connection.update_value, hfind, if_pos hlen]
    rfl
  · intro j hj
    exact ⟨ambiguous_tags_msg_names hj, ambiguous_webids_msg_names hj⟩
  · exact hasSubstr_append_left _ (by decide)
  · exact hasSubstr_append_left _ (by decide)

/-- Witness for `C1_ambiguous_single_result` on a concrete two-match
transport. -/
theorem C1_witness :
    conn0.get_interpolated_value rich_transport "x" =
      { conn := conn0
        trace := [search_request conn0 (some "x")]
        result := .error (.valueError (ambiguous_tags_msg [.str "a", .str "b"])) } := by
  exact (C1_ambiguous_single_result conn0 rich_transport "x" "2021-11-13" RetrievalMode.EXACT
    sample_value UpdateOption.REPLACE BufferOption.BUFFER
    [ .obj [("Name", .str "a"), ("WebId", .str "w1")],
      .obj [("Name", .str "b"), ("WebId", .str "w2")] ]
    [(.str "a", .str "w1"), (.str "b", .str "w2")]
    rfl rfl (by decide) (by decide) (by decide)).1

set_option maxRecDepth 4000 in
/-- Counterexample to claim C1 as stated: with two matches `a`, `b`, the
recorded-at-time single-result operation raises the ambiguity error, but
its message nowhere mentions `get_recordedattim_values`, the
corresponding multi-result variant — it directs the caller to
`get_interpolated_values` instead. -/
theorem C1_counterexample :
    (conn0.get_recordedattime_value rich_transport "x" "2021-11-13"
        RetrievalMode.EXACT).result =
      .error (.valueError (ambiguous_tags_msg [.str "a", .str "b"])) ∧
    ¬ hasSubstr "get_recordedattim_values" (ambiguous_tags_msg [.str "a", .str "b"]) := by
  constructor
  · decide
  · decide

/-- Claim C2: a recorded-at-time fetch whose response carries a truthy
`Value` payload returns the bare inner `Value.Value` scalar when the
retrieval mode is `Exact`, and the full `Value` object unchanged for
every other retrieval mode. -/
theorem C2_exact_unwraps (c : Connection) (t : Transport) (webid v inner : Json)
    (time : String) (mode : RetrievalMode)
    (hok : (t (recordedattime_request c webid time mode)).status_code = 200)
    (hv : (t (recordedattime_request c webid time mode)).content.lookup "Value" = some v)
    (htruthy : v.truthy = true) :
    (mode = RetrievalMode.EXACT → v.lookup "Value" = some inner →
      (c.single_recordedattime_value_getter t webid time mode).result = .ok inner) ∧
    (mode ≠ RetrievalMode.EXACT →
      (c.single_recordedattime_value_getter t webid time mode).result = .ok v) := by
  constructor
  · rintro rfl hinner
    simp [Connection.single_recordedattime_value_getter, hok, hv, htruthy,
      RetrievalMode.value, hinner]
  · intro hne
    have hval : mode.value ≠ "Exact" := by
      cases mode <;> simp_all [RetrievalMode.value]
    simp [Connection.single_recordedattime_value_getter, hok, hv, htruthy, hval]

/-- Witness for `C2_exact_unwraps`: on a concrete response whose `Value`
is an object with inner scalar 42, mode `Exact` yields the bare 42 and
mode `After` yields the full object. -/
theorem C2_witness :
    (conn0.single_recordedattime_value_getter rich_transport (.str "w") "2021-11-13"
        RetrievalMode.EXACT).result = .ok (.num 42) ∧
    (conn0.single_recordedattime_value_getter rich_transport (.str "w") "2021-11-13"
        RetrievalMode.AFTER).result =
      .ok (.obj [("Value", .num 42), ("Good", .bool true)]) := by
  constructor
  · exact (C2_exact_unwraps conn0 rich_transport (.str "w")
      (.obj [("Value", .num 42), ("Good", .bool true)]) (.num 42) "2021-11-13"
      RetrievalMode.EXACT rfl rfl rfl).1 rfl rfl
  · exact (C2_exact_unwraps conn0 rich_transport (.str "w")
      (.obj [("Value", .num 42), ("Good", .bool true)]) (.num 42) "2021-11-13"
      RetrievalMode.AFTER rfl rfl rfl).2 (by decide)

/-- Claim C3: calling `update_value` with both a direct webid and a tag
pattern fails immediately with the `ValueError` guard and an empty
request trace — no network call at all. -/
theorem C3_update_value_both_rejected (c : Connection) (t : Transport) (value : PIValue)
    (uo : UpdateOption) (bo : BufferOption) (tag w : String) :
    c.update_value t value uo bo (some tag) (some w) =
      { conn := c
        trace := []
        result := .error (.valueError "Cannot pass both webid and pi_tag at the same time") } :=
  rfl

/-- Claim C4: a write through `update_value` succeeds with the response's
`Location` header when the status is 200 OK or 204 No Content (a missing
`Location` header on such a response is itself a `KeyError`), and fails
with `LookupError` carrying the raw response on any other status. -/
theorem C4_write_status (c : Connection) (t : Transport) (value : PIValue)
    (uo : UpdateOption) (bo : BufferOption) (w : String) :
    ((t (write_request c w uo bo value)).status_code = 200 ∨
        (t (write_request c w uo bo value)).status_code = 204 →
      (∀ loc, (t (write_request c w uo bo value)).headers.lookup "Location" = some loc →
        (c.update_value t value uo bo none (some w)).result = .ok loc) ∧
      ((t (write_request c w uo bo value)).headers.lookup "Location" = none →
        (c.update_value t value uo bo none (some w)).result = .error (.keyError "Location"))) ∧
    ((t (write_request c w uo bo value)).status_code ≠ 200 →
      (t (write_request c w uo bo value)).status_code ≠ 204 →
      (c.update_value t value uo bo none (some w)).result =
        .error (.lookupError (t (write_request c w uo bo value)))) := by
  have hred : c.update_value t value uo bo none (some w) =
      c.post_value t value uo bo w [] := rfl
  rw [hred]
  constructor
  · intro hok
    have hcond : ¬ ((t (write_request c w uo bo value)).status_code ≠ 200 ∧
        (t (write_request c w uo bo value)).status_code ≠ 204) := by tauto
    constructor
    · intro loc hloc
      simp [Connection.post_value, hcond, hloc]
    · intro hnone
      simp [Connection.post_value, hcond, hnone]
  · intro h200 h204
    simp [Connection.post_value, h200, h204]

/-- Witness for `C4_write_status`: a concrete 204 No Content response
yields its `Location` header, a concrete 404 yields `LookupError` with
that raw response. -/
theorem C4_witness :
    (conn0.update_value nocontent_transport sample_value UpdateOption.REPLACE
        BufferOption.BUFFER none (some "w")).result =
      .ok "https://srv/piwebapi/streams/w/value" ∧
    (conn0.update_value notfound_transport sample_value UpdateOption.REPLACE
        BufferOption.BUFFER none (some "w")).result =
      .error (.lookupError (notfound_transport
        (write_request conn0 "w" UpdateOption.REPLACE BufferOption.BUFFER sample_value))) := by
  constructor
  · exact ((C4_write_status conn0 nocontent_transport sample_value UpdateOption.REPLACE
      BufferOption.BUFFER "w").1 (Or.inr rfl)).1 _ rfl
  · exact (C4_write_status conn0 notfound_transport sample_value UpdateOption.REPLACE
      BufferOption.BUFFER "w").2 (by decide) (by decide)

/-- Claim C5: the serialized form of a `PIValue` contains exactly the
always-present `Timestamp` key plus one key per optional field the
caller actually set; unset (`None`) fields are omitted entirely. -/
theorem C5_serialized_keys (v : PIValue) (k : String) :
    k ∈ (PIValue.to_json v).keys ↔
      (k = "Timestamp" ∨
       (k = "UnitsAbbreviation" ∧ v.units_abbreviation ≠ none) ∨
       (k = "Good" ∧ v.good ≠ none) ∨
       (k = "Questionable" ∧ v.questionable ≠ none) ∨
       (k = "Value" ∧ v.value ≠ none)) := by
  obtain ⟨ts, ua, g, q, val⟩ := v
  cases ua <;> cases g <;> cases q <;> cases val <;>
    simp [PIValue.to_json, Json.keys]

/-- Claim C6: when the search transport call succeeds (status 200) but
the `Items` payload is empty/falsy, resolution fails with the
`ValueError` empty-result condition; when the transport call itself
fails (non-200), it fails with `LookupError` carrying the raw response;
and the two conditions are distinct constructors. -/
theorem C6_empty_vs_notfound (c : Connection) (t t2 : Transport) (p : Option String)
    (items : Json)
    (hok : (t (search_request c p)).status_code = 200)
    (hitems : (t (search_request c p)).content.lookup "Items" = some items)
    (hfalsy : items.truthy = false)
    (hbad : (t2 (search_request c p)).status_code ≠ 200) :
    (c.find_pi_webid t p).result = .error (.valueError "No response. Please check tag name") ∧
    (c.find_pi_webid t2 p).result = .error (.lookupError (t2 (search_request c p))) ∧
    (∀ resp : Response,
      PiError.valueError "No response. Please check tag name" ≠ PiError.lookupError resp) := by
  refine ⟨?_, ?_, ?_⟩
  · simp [Connection.find_pi_webid, hok, hitems, hfalsy]
  · simp [Connection.find_pi_webid, hbad]
  · intro resp h
    exact PiError.noConfusion h

/-- Witness for `C6_empty_vs_notfound` on concrete empty-result and
404 transports. -/
theorem C6_witness :
    (conn0.find_pi_webid empty_items_transport (some "x")).result =
      .error (.valueError "No response. Please check tag name") ∧
    (conn0.find_pi_webid notfound_transport (some "x")).result =
      .error (.lookupError (notfound_transport (search_request conn0 (some "x")))) := by
  have h := C6_empty_vs_notfound conn0 empty_items_transport notfound_transport
    (some "x") (.arr []) rfl rfl rfl (by decide)
  exact ⟨h.1, h.2.1⟩

/-- Claim C7: when resolution yields a mapping `dic` with more than one
entry and every per-identifier fetch succeeds, both multi-result
operations succeed and return a mapping with exactly one entry per
matched tag name, keyed by those names. -/
theorem C7_multi_result (c : Connection) (t : Transport) (tag time : String)
    (mode : RetrievalMode) (dic : List (Json × Json)) (F G : Json → Json)
    (hfind : (c.find_pi_webid t (some tag)).result = .ok dic)
    (hlen : 1 < dic.length)
    (hF : ∀ p ∈ dic, (c.single_interpolated_value_getter t p.2).result = .ok (F p.2))
    (hG : ∀ p ∈ dic,
      (c.single_recordedattime_value_getter t p.2 time mode).result = .ok (G p.2)) :
    ((c.get_interpolated_values t tag).result = .ok (dic.map fun p => (p.1, F p.2)) ∧
     (dic.map fun p => (p.1, F p.2)).length = dic.length ∧
     (dic.map fun p => (p.1, F p.2)).map Prod.fst = dic.map Prod.fst) ∧
    ((c.get_recordedattim_values t tag time mode).result =
        .ok (dic.map fun p => (p.1, G p.2)) ∧
     (dic.map fun p => (p.1, G p.2)).length = dic.length ∧
     (dic.map fun p => (p.1, G p.2)).map Prod.fst = dic.map Prod.fst) := by
  refine ⟨⟨?_, by simp, by simp⟩, ⟨?_, by simp, by simp⟩⟩
  · simp only [Connection.get_interpolated_values, hfind]
    rw [interpolated_fan_out_ok c t F dic _ _ hF]
    simp
  · simp only [Connection.get_recordedattim_values, hfind]
    rw [recordedattime_fan_out_ok c t time mode G dic _ _ hG]
    simp

/-- Witness for `C7_multi_result`: on the two-match transport, both
multi-result operations return two entries keyed `a` and `b`. -/
theorem C7_witness :
    (conn0.get_interpolated_values rich_transport "x").result =
      .ok [(.str "a", items2), (.str "b", items2)] ∧
    (conn0.get_recordedattim_values rich_transport "x" "2021-11-13"
        RetrievalMode.AFTER).result =
      .ok [(.str "a", .obj [("Value", .num 42), ("Good", .bool true)]),
           (.str "b", .obj [("Value", .num 42), ("Good", .bool true)])] := by
  have h := C7_multi_result conn0 rich_transport "x" "2021-11-13" RetrievalMode.AFTER
    [(.str "a", .str "w1"), (.str "b", .str "w2")]
    (fun _ => items2) (fun _ => .obj [("Value", .num 42), ("Good", .bool true)])
    (by decide) (by decide)
    (by
      intro p hp
      simp only [List.mem_cons, List.not_mem_nil, or_false] at hp
      rcases hp with rfl | rfl <;> decide)
    (by
      intro p hp
      simp only [List.mem_cons, List.not_mem_nil, or_false] at hp
      rcases hp with rfl | rfl <;> decide)
  exact ⟨h.1.1, h.2.1⟩

/-- Claim C8 (spec-modelled for `RetrievalMode`, which `PiConsts.py` as
provided does not define): the retrieval-mode enumeration accepts
exactly the tokens Exact/Before/After/Interpolated, each member's wire
value round-trips through construction (the 1:1 mapping), and — from the
source — `BufferOption` construction likewise rejects every string
outside its closed set at construction time. -/
theorem C8_closed_enums :
    (∀ s : String, (RetrievalMode.ofString s).isSome ↔
        s = "Exact" ∨ s = "Before" ∨ s = "After" ∨ s = "Interpolated") ∧
    (∀ m : RetrievalMode, RetrievalMode.ofString m.value = some m) ∧
    (∀ s : String, (BufferOption.ofString s).isSome ↔
        s = "DoNotBuffer" ∨ s = "BufferIdPossible" ∨ s = "Buffer") ∧
    (∀ b : BufferOption, BufferOption.ofString b.value = some b) := by
  refine ⟨?_, ?_, ?_, ?_⟩
  · intro s
    unfold RetrievalMode.ofString
    split_ifs <;> simp_all
  · intro m
    cases m <;> decide
  · intro s
    unfold BufferOption.ofString
    split_ifs <;> simp_all
  · intro b
    cases b <;> decide

/-- Claim C9, amended.  The connection's configuration (auth strategy,
server host, base URL, trust mode) is never modified by any operation,
and every operation except `get_data_servers` returns the connection
object entirely unchanged; `get_data_servers`, however, does mutate the
object by storing the fetched list in `self.data_server_list`. -/
theorem C9_connection_state (c : Connection) (t : Transport) (tag time : String)
    (mode : RetrievalMode) (value : PIValue) (uo : UpdateOption) (bo : BufferOption)
    (p wopt : Option String) (webid : Json) :
    (c.find_pi_webid t p).conn = c ∧
    (c.single_interpolated_value_getter t webid).conn = c ∧
    (c.single_recordedattime_value_getter t webid time mode).conn = c ∧
    (c.get_interpolated_value t tag).conn = c ∧
    (c.get_interpolated_values t tag).conn = c ∧
    (c.get_recordedattime_value t tag time mode).conn = c ∧
    (c.get_recordedattim_values t tag time mode).conn = c ∧
    (c.update_value t value uo bo p wopt).conn = c ∧
    ((c.get_data_servers t).conn.auth = c.auth ∧
     (c.get_data_servers t).conn.base_url = c.base_url ∧
     (c.get_data_servers t).conn.starting_url = c.starting_url ∧
     (c.get_data_servers t).conn.verify = c.verify) :=
  ⟨rfl, rfl, rfl, get_interpolated_value_conn c t tag,
    get_interpolated_values_conn c t tag,
    get_recordedattime_value_conn c t tag time mode,
    get_recordedattim_values_conn c t tag time mode,
    update_value_conn c t value uo bo p wopt,
    get_data_servers_config c t⟩

/-- Counterexample to claim C9 as stated: on a concrete successful
discovery, `get_data_servers` returns a connection object different
from the one it was called on — it has stored the fetched server list
in `data_server_list`, which was absent before the call. -/
theorem C9_counterexample :
    (conn0.get_data_servers dataservers_transport).conn ≠ conn0 ∧
    (conn0.get_data_servers dataservers_transport).conn.data_server_list =
      some [.obj [("Name", .str "ds1")]] ∧
    conn0.data_server_list = none := by
  refine ⟨?_, by decide, rfl⟩
  decide

/-- Claim C10: `update_value` with neither webid nor tag supplied is not
rejected up front; its first transport call is the catalog search for
the pattern `None` (Python's rendering of the unsupplied argument). -/
theorem C10_no_target_still_searches (c : Connection) (t : Transport) (value : PIValue)
    (uo : UpdateOption) (bo : BufferOption) :
    (c.update_value t value uo bo none none).trace.head? = some (search_request c none) ∧
    (search_request c none).url = c.starting_url ++ "search/query?q=name:None" := by
  constructor
  · rcases hr : (c.find_pi_webid t none).result with e | dic
    · simp only [Connection.update_value, hr]
      rfl
    · rcases dic with _ | ⟨⟨k, v⟩, rest⟩
      · simp only [Connection.update_value, hr]
        rfl
      · by_cases hl : 1 < ((k, v) :: rest : List (Json × Json)).length
        · simp only [Connection.update_value, hr, if_pos hl]
          rfl
        · simp only [Connection.update_value, hr, if_neg hl]
          rfl
  · show c.starting_url ++ "search/query?q=name:" ++ pyOptStr none =
      c.starting_url ++ "search/query?q=name:None"
    rw [String.append_assoc]
    congr 1

end PiWrapper
